import Mathlib

/-!
Shallow embedding of `src/hawk/local_image_gen.py` (hawk-tui-video-generator).

Python strings are modelled as `List Char` (`Str`); the module-level mutable
globals `_pipeline`, `_current_model`, `_model_loaded` become an explicit
`GenState` record threaded through the functions; the external world
(HuggingFace cache probe, torch device availability, the diffusers load call,
the pipeline inference call, `datetime.now`) is an `Env` of oracles.
Progress callbacks are modelled as an emitted list of event strings.
-/

set_option maxRecDepth 100000

abbrev Str := List Char

/-- Python `s or default` for an optional string argument: `None` and the empty
string are both falsy and resolve to the default (`model_name = model_name or SD_MODEL`). -/
def orDefault (m : Option Str) (d : Str) : Str :=
  match m with
  | none => d
  | some s => if s = [] then d else s

/-- Python `str.rfind(c)` for a single-character needle: highest index whose
character equals `c`, or `-1` when absent. -/
def rfind (s : Str) (c : Char) : Int :=
  match s with
  | [] => -1
  | a :: t =>
    if 0 ≤ rfind t c then rfind t c + 1
    else if a = c then 0 else -1

/-- Characters Python `str.strip()` removes (ASCII whitespace). -/
def pyIsSpace (c : Char) : Bool :=
  c = ' ' || c = '\t' || c = '\n' || c = '\r' || c = '\x0b' || c = '\x0c'

/-- Python `str.strip()`: drop whitespace from both ends. -/
def pyStrip (s : Str) : Str :=
  ((s.dropWhile pyIsSpace).reverse.dropWhile pyIsSpace).reverse

/-- Python `str.rstrip(",")`: drop trailing commas. -/
def rstripComma (s : Str) : Str :=
  (s.reverse.dropWhile (fun c => c = ',')).reverse

/-- `MAX_PROMPT_CHARS` (local_image_gen.py line 254). -/
def MAX_PROMPT_CHARS : Nat := 250

/-- Prompt truncation block of `generate_image` (local_image_gen.py lines 253-262):
truncate to 250 chars, back off to the last comma/space when that break is at
index > 150, `rstrip(",").strip()` the back-off result or `strip()` the hard cut.
The returned flag records whether the truncation branch was taken (surfaced to
callers as the `truncated` metadata). -/
def sanitize_prompt (prompt : Str) : Str × Bool :=
  if prompt.length > MAX_PROMPT_CHARS then
    let truncated := prompt.take MAX_PROMPT_CHARS
    let last_break := max (rfind truncated ',') (rfind truncated ' ')
    if last_break > 150 then
      (pyStrip (rstripComma (truncated.take last_break.toNat)), true)
    else
      (pyStrip truncated, true)
  else
    (prompt, false)

/-- `_aspect_to_dimensions` (local_image_gen.py lines 205-214): table lookup with
`(768, 1344)` as the default for unknown labels. -/
def _aspect_to_dimensions (aspect_ratio : String) : Nat × Nat :=
  if aspect_ratio = "9:16" then (768, 1344)
  else if aspect_ratio = "16:9" then (1344, 768)
  else if aspect_ratio = "1:1" then (1024, 1024)
  else if aspect_ratio = "4:3" then (1152, 896)
  else if aspect_ratio = "3:4" then (896, 1152)
  else (768, 1344)

/-- Torch floating-point dtypes used by the module (`torch.float16`,
`torch.bfloat16`, `torch.float32`). -/
inductive Dtype where
  | float16
  | bfloat16
  | float32
deriving DecidableEq

/-- A loaded diffusers pipeline object (`AutoPipelineForText2Image.from_pretrained(...)
.to(device)`): the model it was loaded from plus the device/dtype it was placed on. -/
structure Pipe where
  modelId : Str
  device : String
  dtype : Dtype
deriving DecidableEq

/-- The module-level globals of local_image_gen.py (lines 16-18):
`_pipeline`, `_current_model`, `_model_loaded`. -/
structure GenState where
  pipeline : Option Pipe
  currentModel : Option Str
  modelLoaded : Bool
deriving DecidableEq

/-- Arguments of one `pipeline(**pipe_kwargs)` inference call
(local_image_gen.py lines 292-302): `guidance_scale` is present iff positive,
`imageIndex` is the loop index `i`. -/
structure PipelineCall where
  model : Str
  prompt : Str
  width : Nat
  height : Nat
  num_inference_steps : Nat
  guidance_scale : Option Int
  seed : Option Nat
  imageIndex : Nat

/-- External-world oracles: config constants from `hawk.config`, torch device
availability, the HuggingFace cache probe, whether the diffusers weight load
(`from_pretrained`, line 122) succeeds for a given model and the stringified
exception when it raises, the `datetime.now().strftime("%Y%m%d_%H%M%S")`
result, and the dimensions of the image produced by one inference call. -/
structure Env where
  sdModel : Str
  sdInferenceSteps : Nat
  sdGuidanceScale : Int
  cudaAvailable : Bool
  mpsAvailable : Bool
  cachedOnDisk : Str → Bool
  loadOk : Str → Bool
  loadErr : Str → Str
  timestamp : Str
  pipeImage : PipelineCall → Nat × Nat

/-- `is_model_cached` (local_image_gen.py lines 21-33): resolves the optional
name against `SD_MODEL` and probes the on-disk HuggingFace cache; the oracle
absorbs the `try/except` (an exception is reported as `false`). -/
def is_model_cached (env : Env) (model_name : Option Str) : Bool :=
  env.cachedOnDisk (orDefault model_name env.sdModel)

/-- Size table of `get_model_size` (local_image_gen.py lines 41-50). -/
def model_sizes : List (Str × Str) :=
  [("black-forest-labs/FLUX.1-schnell".toList, "~23 GB".toList),
   ("black-forest-labs/FLUX.1-dev".toList, "~23 GB".toList),
   ("stabilityai/stable-diffusion-xl-base-1.0".toList, "~6.5 GB".toList),
   ("stabilityai/sdxl-turbo".toList, "~6.5 GB".toList),
   ("stabilityai/stable-diffusion-3-medium-diffusers".toList, "~12 GB".toList),
   ("runwayml/stable-diffusion-v1-5".toList, "~4.3 GB".toList),
   ("stabilityai/stable-diffusion-2-1".toList, "~5.2 GB".toList),
   ("SimianLuo/LCM_Dreamshaper_v7".toList, "~4.0 GB".toList)]

/-- `get_model_size` (local_image_gen.py lines 36-51): `sizes.get(model_name, "~4-7 GB")`. -/
def get_model_size (env : Env) (model_name : Option Str) : Str :=
  let name := orDefault model_name env.sdModel
  match model_sizes.lookup name with
  | some s => s
  | none => "~4-7 GB".toList

/-- Python substring test `needle in hay`. -/
def containsSub (hay needle : Str) : Bool :=
  if needle.isPrefixOf hay then true
  else
    match hay with
    | [] => false
    | _ :: t => containsSub t needle

/-- `is_flux = "flux" in model_name.lower()` (local_image_gen.py line 105). -/
def isFluxName (model_name : Str) : Bool :=
  containsSub (model_name.map Char.toLower) "flux".toList

/-- Device and dtype selection of `preload_model` (local_image_gen.py lines
104-119): CUDA first, then MPS, then CPU; flux-family models get `bfloat16`
on an accelerator, other families `float16`; CPU always `float32`.
Also returns the progress message `update(...)` emits for the chosen device. -/
def select_device (cuda mps : Bool) (model_name : Str) : String × Dtype × Str :=
  let is_flux := isFluxName model_name
  if cuda then
    ("cuda", if is_flux then .bfloat16 else .float16, "Using CUDA GPU".toList)
  else if mps then
    ("mps", if is_flux then .bfloat16 else .float16,
     "Using Apple Silicon (MPS) with ".toList ++
       (if is_flux then "bfloat16".toList else "float16".toList))
  else
    ("cpu", .float32, "Using CPU (slow)".toList)

/-- `preload_model` (local_image_gen.py lines 54-144). Returns the new global
state, the boolean result, and the progress events delivered to the callback.
The failure oracle models the weight load `from_pretrained` (line 122) raising;
in that case the `except` branch (lines 140-144) reports the error and returns
`False` without touching any global. -/
def preload_model (env : Env) (st : GenState) (model_name : Option Str) :
    GenState × Bool × List Str :=
  let name := orDefault model_name env.sdModel
  if st.pipeline.isSome ∧ st.currentModel = some name then
    (st, true, ["Model already loaded".toList])
  else
    let cacheEvents :=
      if is_model_cached env (some name) then
        ["Loading ".toList ++ name ++ " from cache...".toList]
      else
        ["Downloading ".toList ++ name ++ " (".toList ++
           get_model_size env (some name) ++ ")...".toList,
         "This may take several minutes on first run...".toList]
    let sel := select_device env.cudaAvailable env.mpsAvailable name
    let events := cacheEvents ++ [sel.2.2, "Loading model weights...".toList]
    if env.loadOk name then
      ({ pipeline := some { modelId := name, device := sel.1, dtype := sel.2.1 },
         currentModel := some name, modelLoaded := true },
       true,
       events ++ ["Moving model to ".toList ++ sel.1.toList ++ "...".toList,
                  "Model ready!".toList])
    else
      (st, false, events ++ ["Error: ".toList ++ env.loadErr name])

/-- `is_model_loaded` (local_image_gen.py lines 147-149). -/
def is_model_loaded (st : GenState) : Bool :=
  st.modelLoaded && st.pipeline.isSome

/-- `_get_pipeline` (local_image_gen.py lines 152-167): return the cached
pipeline when the model matches, otherwise preload (with no progress callback);
a preload failure raises `RuntimeError`, modelled as `none`. -/
def _get_pipeline (env : Env) (st : GenState) (model_name : Option Str) :
    GenState × Option Pipe :=
  let name := orDefault model_name env.sdModel
  if st.pipeline.isSome ∧ st.currentModel = some name then
    (st, st.pipeline)
  else
    let r := preload_model env st (some name)
    if r.2.1 then (r.1, r.1.pipeline) else (r.1, none)

/-- `unload_model` (local_image_gen.py lines 334-351): when a pipeline is
resident, drop it and clear `_current_model` (note `_model_loaded` is not
touched); otherwise do nothing. Garbage collection and the CUDA cache flush
have no observable effect on the modelled state. -/
def unload_model (st : GenState) : GenState :=
  if st.pipeline.isSome then
    { st with pipeline := none, currentModel := none }
  else
    st

/-- Modelled from the spec: `hawk/config.py` is not under src/. Section 4.4
step 5 resizes a portrait ("9:16") image "to the exact target size" and the
section 8 scenario fixes that size at exactly 768x1344, so the config constant
`TIKTOK_WIDTH` is 768. -/
def TIKTOK_WIDTH : Nat := 768

/-- Modelled from the spec: `hawk/config.py` is not under src/; per the
section 8 scenario the exact portrait target height is 1344 (`TIKTOK_HEIGHT`). -/
def TIKTOK_HEIGHT : Nat := 1344

/-- `Project` from `hawk.config` (not under src/): only its images directory
is relevant here (`project.images_dir`, a path prefix for saved files). -/
structure Project where
  images_dir : Str

/-- One PNG artifact written by `generate_image`: its path and the pixel
dimensions of the saved image. -/
structure SavedImage where
  path : Str
  width : Nat
  height : Nat
deriving DecidableEq

/-- Little-endian decimal digit characters of `n` (`fuel` bounds the recursion
so that the definition is structural and computable by the kernel). -/
def natDigitsAux : Nat → Nat → List Char
  | 0, _ => []
  | _, 0 => []
  | fuel + 1, n => Char.ofNat (48 + n % 10) :: natDigitsAux fuel (n / 10)

/-- Decimal rendering of a natural number (Python `f"{i+1}"` / `str(width)`). -/
def natStr (n : Nat) : Str :=
  if n = 0 then ['0'] else (natDigitsAux n n).reverse

/-- Characters the filename slug keeps: `c.isalnum() or c in " -_"`
(local_image_gen.py line 323). -/
def slugKeep (c : Char) : Bool :=
  c.isAlphanum || c = ' ' || c = '-' || c = '_'

/-- Filename slug of `generate_image` (local_image_gen.py lines 323-324):
filter the first 30 chars of the (sanitized) prompt, `strip()`, then replace
spaces with underscores. -/
def safe_prompt_slug (prompt : Str) : Str :=
  (pyStrip ((prompt.take 30).filter slugKeep)).map (fun c => if c = ' ' then '_' else c)

/-- `generate_image` (local_image_gen.py lines 217-331). Returns the new global
state and, on success, the list of saved artifacts in order (the Python return
value is their `path` projection); `none` models the `RuntimeError` raised when
the pipeline cannot be loaded. The inference call is the `env.pipeImage`
oracle; saving to disk is modelled by recording path and dimensions. -/
def generate_image (env : Env) (st : GenState) (project : Project) (prompt0 : Str)
    (num_outputs : Nat) (aspect_ratio : String) (seed : Option Nat)
    (model : Option Str) (num_inference_steps : Option Nat)
    (guidance_scale : Option Int) : GenState × Option (List SavedImage) :=
  let steps := num_inference_steps.getD env.sdInferenceSteps
  let guidance := guidance_scale.getD env.sdGuidanceScale
  let prompt := (sanitize_prompt prompt0).1
  let r := _get_pipeline env st model
  match r.2 with
  | none => (r.1, none)
  | some pipe =>
    let dims := _aspect_to_dimensions aspect_ratio
    let timestamp := env.timestamp
    let saved := (List.range num_outputs).map (fun i =>
      let call : PipelineCall :=
        { model := pipe.modelId, prompt := prompt, width := dims.1, height := dims.2,
          num_inference_steps := steps,
          guidance_scale := if guidance > 0 then some guidance else none,
          seed := seed, imageIndex := i }
      let produced := env.pipeImage call
      let final :=
        if aspect_ratio = "9:16" ∧ (produced.1 ≠ TIKTOK_WIDTH ∨ produced.2 ≠ TIKTOK_HEIGHT)
        then (TIKTOK_WIDTH, TIKTOK_HEIGHT)
        else produced
      let filename := timestamp ++ ('_' :: safe_prompt_slug prompt) ++
        ('_' :: natStr (i + 1)) ++ ".png".toList
      { path := project.images_dir ++ ('/' :: filename),
        width := final.1, height := final.2 })
    (r.1, some saved)

/-- Metadata mapping of a GenerationResult (spec section 3): whether the
prompt was truncated. -/
structure Metadata where
  truncated : Bool
deriving DecidableEq

/-- Modelled from the spec: the dispatcher wrapper `hawk/image_generator.py`
(whose `generate_image` returns `(paths, metadata)`, see app.py line 457) is
not under src/. Per spec section 3, the GenerationResult pairs the ordered
output paths with a metadata mapping recording whether the prompt was
truncated. -/
def image_generator_generate_image (env : Env) (st : GenState) (project : Project)
    (prompt : Str) (num_outputs : Nat) (aspect_ratio : String) (seed : Option Nat)
    (model : Option Str) (num_inference_steps : Option Nat)
    (guidance_scale : Option Int) :
    GenState × Option (List SavedImage × Metadata) :=
  let r := generate_image env st project prompt num_outputs aspect_ratio seed model
    num_inference_steps guidance_scale
  match r.2 with
  | none => (r.1, none)
  | some saved => (r.1, some (saved, { truncated := (sanitize_prompt prompt).2 }))

/-- Standard base64 alphabet (RFC 4648), as used by Python `base64.b64encode`. -/
def b64chr (v : Nat) : Char :=
  if v < 26 then Char.ofNat (65 + v)
  else if v < 52 then Char.ofNat (97 + (v - 26))
  else if v < 62 then Char.ofNat (48 + (v - 52))
  else if v = 62 then '+'
  else '/'

/-- Python `base64.b64encode` on a byte sequence (each < 256), producing the
padded base64 character string. -/
def b64encode : List Nat → Str
  | [] => []
  | [b1] => [b64chr (b1 / 4), b64chr (b1 % 4 * 16), '=', '=']
  | [b1, b2] => [b64chr (b1 / 4), b64chr (b1 % 4 * 16 + b2 / 16), b64chr (b2 % 16 * 4), '=']
  | b1 :: b2 :: b3 :: rest =>
    b64chr (b1 / 4) :: b64chr (b1 % 4 * 16 + b2 / 16) ::
      b64chr (b2 % 16 * 4 + b3 / 64) :: b64chr (b3 % 64) :: b64encode rest

/-- Value of a base64 alphabet character (inverse of `b64chr` on 0..63). -/
def b64val (c : Char) : Nat :=
  if 65 ≤ c.toNat ∧ c.toNat ≤ 90 then c.toNat - 65
  else if 97 ≤ c.toNat ∧ c.toNat ≤ 122 then c.toNat - 97 + 26
  else if 48 ≤ c.toNat ∧ c.toNat ≤ 57 then c.toNat - 48 + 52
  else if c = '+' then 62
  else 63

/-- Base64 decoding of a padded base64 string back to bytes (inverse of
`b64encode`), witnessing that the encoding loses no information. -/
def b64decode : Str → List Nat
  | c1 :: c2 :: c3 :: c4 :: rest =>
    if c3 = '=' then [b64val c1 * 4 + b64val c2 / 16]
    else if c4 = '=' then
      [b64val c1 * 4 + b64val c2 / 16, b64val c2 % 16 * 16 + b64val c3 / 4]
    else
      (b64val c1 * 4 + b64val c2 / 16) :: (b64val c2 % 16 * 16 + b64val c3 / 4) ::
        (b64val c3 % 4 * 64 + b64val c4) :: b64decode rest
  | _ => []

/-- `imgcat` (local_image_gen.py lines 354-374): the raw file bytes (the
`f.read()` result is passed in directly) are base64-encoded and wrapped in the
iTerm2 inline-image escape template
`\x1b]1337;File=inline=1;width={width}:{b64_data}\x07`. -/
def imgcat (image_data : List Nat) (width : Nat) : Str :=
  '\x1b' :: "]1337;File=inline=1;width=".toList ++ natStr width ++
    (':' :: b64encode image_data) ++ ['\x07']

/-- Spec-side template of the inline terminal image protocol (spec section 6):
`ESC ]1337;File=inline=1;width=<N>:<base64-bytes> BEL` with `<N>` the decimal
display width and `<base64-bytes>` the base64 encoding of the raw file bytes. -/
def specInlineImageSequence (fileBytes : List Nat) (widthColumns : Nat) : Str :=
  ['\x1b'] ++ "]1337;File=inline=1;width=".toList ++ natStr widthColumns ++
    [':'] ++ b64encode fileBytes ++ ['\x07']

/-! ### Concrete fixtures for witnesses and counterexamples -/

/-- Fresh module state: nothing loaded (local_image_gen.py lines 16-18). -/
def st0 : GenState := { pipeline := none, currentModel := none, modelLoaded := false }

/-- State with model "m1" resident (as after a successful `preload_model("m1")`
on an MPS machine). -/
def st1 : GenState :=
  { pipeline := some { modelId := "m1".toList, device := "mps", dtype := .float16 },
    currentModel := some "m1".toList, modelLoaded := true }

/-- Concrete environment: MPS machine, every model cached and loadable. -/
def envA : Env :=
  { sdModel := "stabilityai/sdxl-turbo".toList, sdInferenceSteps := 4,
    sdGuidanceScale := 0, cudaAvailable := false, mpsAvailable := true,
    cachedOnDisk := fun _ => true, loadOk := fun _ => true,
    loadErr := fun _ => "boom".toList, timestamp := "20250101_120000".toList,
    pipeImage := fun _ => (768, 1344) }

/-- Like `envA` but the diffusers weight load raises for every model. -/
def envFail : Env := { envA with loadOk := fun _ => false }

/-- Concrete project whose images directory is `proj/images`. -/
def projA : Project := { images_dir := "proj/images".toList }

/-- The C2 counterexample prompt: 249 `a`s, a period, then 11 `b`s (261 chars,
so truncation applies; the truncated 250-char text ends in `.` and contains no
comma or space). -/
def c2prompt : Str := List.replicate 249 'a' ++ ('.' :: List.replicate 11 'b')

/-! ### Helper lemmas -/

theorem pyStrip_length_le (s : Str) : (pyStrip s).length ≤ s.length := by
  unfold pyStrip
  calc ((s.dropWhile pyIsSpace).reverse.dropWhile pyIsSpace).reverse.length
      = ((s.dropWhile pyIsSpace).reverse.dropWhile pyIsSpace).length := by
        rw [List.length_reverse]
    _ ≤ (s.dropWhile pyIsSpace).reverse.length :=
        ((s.dropWhile pyIsSpace).reverse.dropWhile_sublist pyIsSpace).length_le
    _ = (s.dropWhile pyIsSpace).length := by rw [List.length_reverse]
    _ ≤ s.length := (s.dropWhile_sublist pyIsSpace).length_le

theorem rstripComma_length_le (s : Str) : (rstripComma s).length ≤ s.length := by
  unfold rstripComma
  calc (s.reverse.dropWhile (fun c => c = ',')).reverse.length
      = (s.reverse.dropWhile (fun c => c = ',')).length := by rw [List.length_reverse]
    _ ≤ s.reverse.length := (s.reverse.dropWhile_sublist _).length_le
    _ = s.length := by rw [List.length_reverse]

theorem rfind_lt_length (s : Str) (c : Char) : rfind s c < s.length := by
  induction s with
  | nil => simp [rfind]
  | cons a t ih =>
    rw [rfind]
    by_cases hr : 0 ≤ rfind t c
    · rw [if_pos hr]
      simp only [List.length_cons]
      omega
    · rw [if_neg hr]
      by_cases hac : a = c <;> simp [hac] <;> omega

theorem rfind_get (s : Str) (c : Char) (h : 0 ≤ rfind s c) :
    s.get? (rfind s c).toNat = some c := by
  induction s with
  | nil => simp [rfind] at h
  | cons a t ih =>
    rw [rfind] at h ⊢
    by_cases hr : 0 ≤ rfind t c
    · rw [if_pos hr] at h ⊢
      have ht : (rfind t c + 1).toNat = (rfind t c).toNat + 1 := by omega
      rw [ht, List.get?_cons_succ]
      exact ih hr
    · rw [if_neg hr] at h ⊢
      by_cases hac : a = c
      · rw [if_pos hac] at h ⊢
        simp [hac]
      · rw [if_neg hac] at h
        omega

theorem orDefault_idem (m : Option Str) (d : Str) :
    orDefault (some (orDefault m d)) d = orDefault m d := by
  cases m with
  | none =>
    simp only [orDefault]
    split <;> simp_all
  | some s =>
    simp only [orDefault]
    by_cases hs : s = [] <;> by_cases hd : d = [] <;> simp_all

theorem natDigitsAux_eq_digits (fuel : Nat) :
    ∀ n, n ≤ fuel →
      natDigitsAux fuel n = (Nat.digits 10 n).map (fun d => Char.ofNat (48 + d)) := by
  induction fuel with
  | zero =>
    intro n hn
    interval_cases n
    simp [natDigitsAux]
  | succ fuel ih =>
    intro n hn
    cases n with
    | zero => simp [natDigitsAux]
    | succ m =>
      rw [natDigitsAux, Nat.digits_def' (by norm_num : (1:ℕ) < 10) (Nat.succ_pos m),
        List.map_cons]
      have hdiv : (m + 1) / 10 ≤ fuel := by
        have := Nat.div_lt_self (Nat.succ_pos m) (by norm_num : 1 < 10)
        omega
      rw [ih _ hdiv]
      omega

theorem digitChar_inj : ∀ a, a < 10 → ∀ b, b < 10 →
    Char.ofNat (48 + a) = Char.ofNat (48 + b) → a = b := by decide

theorem map_digitChar_inj :
    ∀ (l1 l2 : List Nat), (∀ x ∈ l1, x < 10) → (∀ x ∈ l2, x < 10) →
      l1.map (fun d => Char.ofNat (48 + d)) = l2.map (fun d => Char.ofNat (48 + d)) →
      l1 = l2 := by
  intro l1
  induction l1 with
  | nil =>
    intro l2 _ _ h
    cases l2 <;> simp_all
  | cons a t ih =>
    intro l2 h1 h2 h
    cases l2 with
    | nil => simp_all
    | cons b t2 =>
      simp only [List.map_cons, List.cons.injEq] at h
      have ha := h1 a (by simp)
      have hb := h2 b (by simp)
      have hab := digitChar_inj a ha b hb h.1
      have ht := ih t2 (fun x hx => h1 x (by simp [hx])) (fun x hx => h2 x (by simp [hx])) h.2
      rw [hab, ht]

theorem natStr_inj_pos {a b : Nat} (ha : 0 < a) (hb : 0 < b)
    (h : natStr a = natStr b) : a = b := by
  unfold natStr at h
  rw [if_neg (by omega), if_neg (by omega),
    natDigitsAux_eq_digits a a le_rfl, natDigitsAux_eq_digits b b le_rfl] at h
  have h2 := List.reverse_injective h
  have h3 := map_digitChar_inj (Nat.digits 10 a) (Nat.digits 10 b)
    (fun x hx => Nat.digits_lt_base (by norm_num) hx)
    (fun x hx => Nat.digits_lt_base (by norm_num) hx) h2
  calc a = Nat.ofDigits 10 (Nat.digits 10 a) := (Nat.ofDigits_digits 10 a).symm
    _ = Nat.ofDigits 10 (Nat.digits 10 b) := by rw [h3]
    _ = b := Nat.ofDigits_digits 10 b

theorem b64val_b64chr : ∀ v, v < 64 → b64val (b64chr v) = v := by decide

theorem b64chr_ne_pad : ∀ v, v < 64 → b64chr v ≠ '=' := by decide

theorem b64_roundtrip :
    ∀ (l : List Nat), (∀ x ∈ l, x < 256) → b64decode (b64encode l) = l
  | [] => fun _ => by simp [b64encode, b64decode]
  | [b1] => fun h => by
    have hb1 : b1 < 256 := h b1 (by simp)
    rw [b64encode, b64decode]
    rw [if_pos rfl]
    rw [b64val_b64chr _ (by omega), b64val_b64chr _ (by omega)]
    have : b1 / 4 * 4 + b1 % 4 * 16 / 16 = b1 := by omega
    rw [this]
  | [b1, b2] => fun h => by
    have hb1 : b1 < 256 := h b1 (by simp)
    have hb2 : b2 < 256 := h b2 (by simp)
    rw [b64encode, b64decode]
    rw [if_neg (b64chr_ne_pad _ (by omega)), if_pos rfl]
    rw [b64val_b64chr _ (by omega), b64val_b64chr _ (by omega),
      b64val_b64chr _ (by omega)]
    have e1 : b1 / 4 * 4 + (b1 % 4 * 16 + b2 / 16) / 16 = b1 := by omega
    have e2 : (b1 % 4 * 16 + b2 / 16) % 16 * 16 + b2 % 16 * 4 / 4 = b2 := by omega
    rw [e1, e2]
  | b1 :: b2 :: b3 :: rest => fun h => by
    have hb1 : b1 < 256 := h b1 (by simp)
    have hb2 : b2 < 256 := h b2 (by simp)
    have hb3 : b3 < 256 := h b3 (by simp)
    have ih := b64_roundtrip rest (fun x hx => h x (by simp [hx]))
    rw [b64encode, b64decode]
    rw [if_neg (b64chr_ne_pad _ (by omega)), if_neg (b64chr_ne_pad _ (by omega))]
    rw [b64val_b64chr _ (by omega), b64val_b64chr _ (by omega),
      b64val_b64chr _ (by omega), b64val_b64chr _ (by omega)]
    have e1 : b1 / 4 * 4 + (b1 % 4 * 16 + b2 / 16) / 16 = b1 := by omega
    have e2 : (b1 % 4 * 16 + b2 / 16) % 16 * 16 + (b2 % 16 * 4 + b3 / 64) / 4 = b2 := by
      omega
    have e3 : (b2 % 16 * 4 + b3 / 64) % 4 * 64 + b3 % 64 = b3 := by omega
    rw [e1, e2, e3, ih]

theorem preload_fastpath (env : Env) (st : GenState) (m : Option Str)
    (h : st.pipeline.isSome ∧ st.currentModel = some (orDefault m env.sdModel)) :
    preload_model env st m = (st, true, ["Model already loaded".toList]) := by
  unfold preload_model
  rw [if_pos h]

theorem preload_load_success (env : Env) (st : GenState) (m : Option Str)
    (hfast : ¬(st.pipeline.isSome ∧ st.currentModel = some (orDefault m env.sdModel)))
    (hok : env.loadOk (orDefault m env.sdModel) = true) :
    (preload_model env st m).1 =
      { pipeline := some
          { modelId := orDefault m env.sdModel,
            device := (select_device env.cudaAvailable env.mpsAvailable
              (orDefault m env.sdModel)).1,
            dtype := (select_device env.cudaAvailable env.mpsAvailable
              (orDefault m env.sdModel)).2.1 },
        currentModel := some (orDefault m env.sdModel), modelLoaded := true } ∧
    (preload_model env st m).2.1 = true := by
  unfold preload_model
  rw [if_neg hfast]
  simp only [hok, if_true]
  exact ⟨trivial, trivial⟩

theorem preload_load_failure (env : Env) (st : GenState) (m : Option Str)
    (hfast : ¬(st.pipeline.isSome ∧ st.currentModel = some (orDefault m env.sdModel)))
    (hfail : env.loadOk (orDefault m env.sdModel) = false) :
    (preload_model env st m).1 = st ∧
    (preload_model env st m).2.1 = false ∧
    (preload_model env st m).2.2.getLast? =
      some ("Error: ".toList ++ env.loadErr (orDefault m env.sdModel)) := by
  unfold preload_model
  rw [if_neg hfast]
  simp only [hfail, if_false, Bool.false_eq_true]
  refine ⟨trivial, trivial, ?_⟩
  rw [List.getLast?_concat]

theorem _get_pipeline_ok (env : Env) (st : GenState) (m : Option Str)
    (hok : env.loadOk (orDefault m env.sdModel) = true) :
    ∃ p, (_get_pipeline env st m).2 = some p := by
  unfold _get_pipeline
  by_cases hfast : st.pipeline.isSome ∧ st.currentModel = some (orDefault m env.sdModel)
  · rw [if_pos hfast]
    exact Option.isSome_iff_exists.mp hfast.1
  · rw [if_neg hfast]
    have hname := orDefault_idem m env.sdModel
    have h2 := preload_load_success env st (some (orDefault m env.sdModel))
      (by rw [hname]; exact hfast) (by rw [hname]; exact hok)
    simp only [h2.2, if_true, h2.1]
    exact ⟨_, rfl⟩

theorem append_suffix_cancel {x y s : Str} (h : x ++ s = y ++ s) : x = y := by
  have hl : x.length = y.length := by
    have hc := congrArg List.length h
    simp only [List.length_append] at hc
    omega
  exact (List.append_inj h hl).1

theorem portrait_resize_dims (produced : Nat × Nat) (c : Prop) [Decidable c]
    (hc : c ↔ (produced.1 ≠ TIKTOK_WIDTH ∨ produced.2 ≠ TIKTOK_HEIGHT)) :
    (if c then (TIKTOK_WIDTH, TIKTOK_HEIGHT) else produced).1 = 768 ∧
    (if c then (TIKTOK_WIDTH, TIKTOK_HEIGHT) else produced).2 = 1344 := by
  by_cases h : c
  · rw [if_pos h]
    exact ⟨rfl, rfl⟩
  · rw [if_neg h]
    rw [hc] at h
    push_neg at h
    exact h

theorem pyStrip_subset (l : Str) : ∀ x ∈ pyStrip l, x ∈ l := by
  intro x hx
  unfold pyStrip at hx
  rw [List.mem_reverse] at hx
  have h1 := ((l.dropWhile pyIsSpace).reverse.dropWhile_sublist pyIsSpace).subset hx
  rw [List.mem_reverse] at h1
  exact (l.dropWhile_sublist pyIsSpace).subset h1

theorem slug_chars (p : Str) :
    ∀ c ∈ safe_prompt_slug p, c.isAlphanum = true ∨ c = '-' ∨ c = '_' := by
  intro c hc
  unfold safe_prompt_slug at hc
  rw [List.mem_map] at hc
  obtain ⟨d, hd, hdc⟩ := hc
  have hmem := pyStrip_subset _ _ hd
  rw [List.mem_filter] at hmem
  have hkeep := hmem.2
  unfold slugKeep at hkeep
  by_cases hsp : d = ' '
  · right; right
    rw [← hdc, if_pos hsp]
  · rw [← hdc, if_neg hsp]
    simp only [hsp, Bool.or_eq_true, decide_eq_true_eq] at hkeep
    tauto

/-! ### Claim theorems -/

/-- C1 counterexample: the claim "on failure the cache state reverts to
Unloaded (isLoaded() is false afterwards and currentModel is cleared)" is false
on the code. Concretely, with model "m1" resident (`st1`) and every load
raising (`envFail`), `preload_model("m2")` returns `False` but the `except`
branch (lines 140-144) touches no global: `is_model_loaded()` is still true
and `_current_model` is still "m1" — the old handle simply stays resident. -/
theorem preload_failure_keeps_state_counterexample :
    (preload_model envFail st1 (some "m2".toList)).2.1 = false ∧
    is_model_loaded (preload_model envFail st1 (some "m2".toList)).1 = true ∧
    (preload_model envFail st1 (some "m2".toList)).1.currentModel = some "m1".toList := by
  decide

/-- C1 (amended): for every model id and progress sink, if preload fails (the
weight load raises, and the already-loaded fast path did not apply), preload
returns false and emits an error progress event as its last event, but the
in-memory cache state is left entirely unchanged rather than reverting to
Unloaded: `isLoaded()` and `currentModel` keep their previous values, so a
previously Ready handle for a different model id simply remains the resident
model. -/
theorem preload_failure_amended (env : Env) (st : GenState) (m : Option Str)
    (hfast : ¬(st.pipeline.isSome ∧ st.currentModel = some (orDefault m env.sdModel)))
    (hfail : env.loadOk (orDefault m env.sdModel) = false) :
    (preload_model env st m).2.1 = false ∧
    (preload_model env st m).1 = st ∧
    is_model_loaded (preload_model env st m).1 = is_model_loaded st ∧
    (preload_model env st m).1.currentModel = st.currentModel ∧
    (preload_model env st m).2.2.getLast? =
      some ("Error: ".toList ++ env.loadErr (orDefault m env.sdModel)) := by
  have h := preload_load_failure env st m hfast hfail
  exact ⟨h.2.1, h.1, by rw [h.1], by rw [h.1], h.2.2⟩

theorem preload_failure_amended_witness :
    (preload_model envFail st0 (some "m2".toList)).2.1 = false ∧
    (preload_model envFail st0 (some "m2".toList)).1 = st0 ∧
    is_model_loaded (preload_model envFail st0 (some "m2".toList)).1 =
      is_model_loaded st0 ∧
    (preload_model envFail st0 (some "m2".toList)).1.currentModel = st0.currentModel ∧
    (preload_model envFail st0 (some "m2".toList)).2.2.getLast? =
      some ("Error: ".toList ++ envFail.loadErr (orDefault (some "m2".toList) envFail.sdModel)) :=
  preload_failure_amended envFail st0 (some "m2".toList) (by decide) (by decide)

/-- C4: at most one model is resident at any time — the resident handle is the
single `Option`-valued `_pipeline` slot (lines 16-18), so there is never more
than one. When model id1 is loaded and a preload of a different id2 succeeds,
the slot afterwards holds a handle for id2 and `_current_model` is id2: the
previous handle was replaced by the assignment on line 122, not kept alongside. -/
theorem preload_replaces_resident (env : Env) (st : GenState) (id1 id2 : Str) (p1 : Pipe)
    (hp : st.pipeline = some p1) (hc : st.currentModel = some id1)
    (hne : id1 ≠ id2) (hid2 : id2 ≠ [])
    (hok : env.loadOk id2 = true) :
    (preload_model env st (some id2)).2.1 = true ∧
    (preload_model env st (some id2)).1.currentModel = some id2 ∧
    ∃ p2 : Pipe, (preload_model env st (some id2)).1.pipeline = some p2 ∧
      p2.modelId = id2 := by
  have hres : orDefault (some id2) env.sdModel = id2 := by
    simp [orDefault, hid2]
  have hfast : ¬(st.pipeline.isSome ∧ st.currentModel = some (orDefault (some id2) env.sdModel)) := by
    rw [hres, hc]
    intro h
    exact hne (by injection h.2)
  have h := preload_load_success env st (some id2) hfast (by rw [hres]; exact hok)
  rw [h.1, hres]
  exact ⟨h.2, rfl, _, rfl, rfl⟩

theorem preload_replaces_resident_witness :
    (preload_model envA st1 (some "m2".toList)).2.1 = true ∧
    (preload_model envA st1 (some "m2".toList)).1.currentModel = some "m2".toList ∧
    ∃ p2 : Pipe, (preload_model envA st1 (some "m2".toList)).1.pipeline = some p2 ∧
      p2.modelId = "m2".toList :=
  preload_replaces_resident envA st1 "m1".toList "m2".toList
    { modelId := "m1".toList, device := "mps", dtype := .float16 }
    (by decide) (by decide) (by decide) (by decide) (by decide)

/-- C5: preload is idempotent — if a preload call succeeded, an immediately
repeated call with the same (optional) model name takes the already-loaded
fast path (lines 79-81): it returns true, emits exactly the single
"Model already loaded" progress event, and leaves the resident handle and
current model id unchanged. The right-hand side is a fixed value independent
of every oracle (`cachedOnDisk`, `loadOk`, device flags), so the second call
performs no load work, no network access and no device interaction. -/
theorem preload_idempotent (env : Env) (st : GenState) (m : Option Str)
    (h : (preload_model env st m).2.1 = true) :
    preload_model env (preload_model env st m).1 m =
      ((preload_model env st m).1, true, ["Model already loaded".toList]) := by
  by_cases hfast : st.pipeline.isSome ∧ st.currentModel = some (orDefault m env.sdModel)
  · rw [preload_fastpath env st m hfast]
    exact preload_fastpath env st m hfast
  · have hok : env.loadOk (orDefault m env.sdModel) = true := by
      by_contra hno
      have hfail := preload_load_failure env st m hfast
        (by revert hno; cases env.loadOk (orDefault m env.sdModel) <;> simp)
      rw [hfail.2.1] at h
      exact absurd h (by simp)
    have hs := preload_load_success env st m hfast hok
    rw [hs.1]
    exact preload_fastpath env _ m ⟨rfl, rfl⟩

theorem preload_idempotent_witness :
    preload_model envA (preload_model envA st0 (some "m1".toList)).1 (some "m1".toList) =
      ((preload_model envA st0 (some "m1".toList)).1, true,
       ["Model already loaded".toList]) :=
  preload_idempotent envA st0 (some "m1".toList) (by decide)

/-- C7: device and precision selection (lines 104-119) probes CUDA first, then
MPS, then falls back to CPU, and for a successful (non-fast-path) preload the
resident handle's precision policy is: on MPS, flux-class models (id containing
"flux" case-insensitively, line 105) get bfloat16 while all other families get
float16; on CPU the dtype is always float32. -/
theorem device_precision_policy (env : Env) (st : GenState) (m : Option Str)
    (hfast : ¬(st.pipeline.isSome ∧ st.currentModel = some (orDefault m env.sdModel)))
    (hok : env.loadOk (orDefault m env.sdModel) = true) :
    ∃ p : Pipe, (preload_model env st m).1.pipeline = some p ∧
      (env.cudaAvailable = true → p.device = "cuda") ∧
      (env.cudaAvailable = false → env.mpsAvailable = true →
        p.device = "mps" ∧
        p.dtype = (if isFluxName (orDefault m env.sdModel) then Dtype.bfloat16
                   else Dtype.float16)) ∧
      (env.cudaAvailable = false → env.mpsAvailable = false →
        p.device = "cpu" ∧ p.dtype = Dtype.float32) := by
  have h := preload_load_success env st m hfast hok
  rw [h.1]
  refine ⟨_, rfl, ?_, ?_, ?_⟩ <;>
    cases hcu : env.cudaAvailable <;> cases hmp : env.mpsAvailable <;>
      simp [select_device, hcu, hmp]

theorem device_precision_policy_witness :
    ∃ p : Pipe,
      (preload_model envA st0 (some "black-forest-labs/FLUX.1-schnell".toList)).1.pipeline
        = some p ∧
      (envA.cudaAvailable = true → p.device = "cuda") ∧
      (envA.cudaAvailable = false → envA.mpsAvailable = true →
        p.device = "mps" ∧
        p.dtype = (if isFluxName (orDefault
            (some "black-forest-labs/FLUX.1-schnell".toList) envA.sdModel)
          then Dtype.bfloat16 else Dtype.float16)) ∧
      (envA.cudaAvailable = false → envA.mpsAvailable = false →
        p.device = "cpu" ∧ p.dtype = Dtype.float32) :=
  device_precision_policy envA st0 (some "black-forest-labs/FLUX.1-schnell".toList)
    (by decide) (by decide)

/-- C8: after `unload_model()`, `is_model_loaded()` returns false and
`_current_model` is cleared (assuming the reachable-state invariant that a
recorded current model implies a resident pipeline); a subsequent
`preload_model` of any model never takes the already-loaded fast path — its
events are not the single "already loaded" message and it reaches the
"Loading model weights..." step — and `unload_model` is a no-op when nothing
is loaded. -/
theorem unload_model_spec (st : GenState) (env : Env) (m : Option Str)
    (hinv : st.currentModel.isSome = true → st.pipeline.isSome = true) :
    is_model_loaded (unload_model st) = false ∧
    (unload_model st).currentModel = none ∧
    (st.pipeline = none → unload_model st = st) ∧
    (preload_model env (unload_model st) m).2.2 ≠ ["Model already loaded".toList] ∧
    "Loading model weights...".toList ∈ (preload_model env (unload_model st) m).2.2 := by
  have hpipe : (unload_model st).pipeline = none ∧ (unload_model st).currentModel = none := by
    unfold unload_model
    by_cases hp : st.pipeline.isSome = true
    · simp [hp]
    · rw [if_neg (by simp [hp])]
      have h1 : st.pipeline = none := by
        cases hps : st.pipeline
        · rfl
        · exact absurd (by rw [hps]; rfl) hp
      have h2 : st.currentModel = none := by
        cases hcs : st.currentModel
        · rfl
        · exact absurd (hinv (by rw [hcs]; rfl)) hp
      exact ⟨h1, h2⟩
  have hfast : ¬((unload_model st).pipeline.isSome ∧
      (unload_model st).currentModel = some (orDefault m env.sdModel)) := by
    rw [hpipe.1]
    intro h
    exact absurd h.1 (by simp)
  have hloading : "Loading model weights...".toList ∈ (preload_model env (unload_model st) m).2.2 := by
    unfold preload_model
    rw [if_neg hfast]
    by_cases hl : env.loadOk (orDefault m env.sdModel) <;>
      by_cases hcd : is_model_cached env (some (orDefault m env.sdModel)) <;>
        simp [hl, hcd]
  refine ⟨?_, hpipe.2, ?_, ?_, hloading⟩
  · unfold is_model_loaded
    rw [hpipe.1]
    simp
  · intro hp
    unfold unload_model
    rw [if_neg (by simp [hp])]
  · intro heq
    rw [heq] at hloading
    exact absurd hloading (by decide)

theorem unload_model_spec_witness :
    is_model_loaded (unload_model st1) = false ∧
    (unload_model st1).currentModel = none ∧
    (st1.pipeline = none → unload_model st1 = st1) ∧
    (preload_model envA (unload_model st1) none).2.2 ≠ ["Model already loaded".toList] ∧
    "Loading model weights...".toList ∈ (preload_model envA (unload_model st1) none).2.2 :=
  unload_model_spec st1 envA none (by decide)

/-- C10: each operation taking an optional model name resolves the empty
string exactly like an absent name (Python `model_name or SD_MODEL`, lines
23, 38, 70, 156): `is_model_cached`, `get_model_size`, `preload_model` and
`_get_pipeline` behave identically on `""` and on `None`. -/
theorem empty_model_name_defaults (env : Env) (st : GenState) :
    is_model_cached env (some []) = is_model_cached env none ∧
    get_model_size env (some []) = get_model_size env none ∧
    preload_model env st (some []) = preload_model env st none ∧
    _get_pipeline env st (some []) = _get_pipeline env st none := by
  have h : orDefault (some []) env.sdModel = orDefault none env.sdModel := by
    simp [orDefault]
  exact ⟨by unfold is_model_cached; rw [h],
         by unfold get_model_size; rw [h],
         by unfold preload_model; rw [h],
         by unfold _get_pipeline; rw [h]⟩

/-- C2 counterexample: the claim "trailing punctuation and whitespace are
stripped from the result" is false on the code. For the 261-character prompt
`c2prompt` (249 `a`s, a period, 11 `b`s) the truncated text has no comma or
space, so the hard-truncation branch applies and only `strip()` (whitespace) is
performed: the result ends in the punctuation character `.`. -/
theorem sanitize_trailing_period_counterexample :
    (sanitize_prompt c2prompt).1 = List.replicate 249 'a' ++ ['.'] ∧
    (sanitize_prompt c2prompt).1.getLast? = some '.' := by decide

/-- C2 (amended): prompts of length at most 250 are returned unchanged with the
truncated flag unset. For every longer prompt, sanitization truncates to 250
characters and sets the flag, and the result has length at most 250; when the
last comma-or-space boundary of the truncated text lies strictly later than
index 150, the result is that prefix with trailing commas and surrounding
whitespace stripped — and the cut is at a comma or space, not mid-word —
otherwise the result is the hard 250-character cut with only surrounding
whitespace stripped (so trailing punctuation other than commas is kept). -/
theorem sanitize_prompt_amended (prompt : Str) :
    (prompt.length ≤ 250 → sanitize_prompt prompt = (prompt, false)) ∧
    (prompt.length > 250 →
      (sanitize_prompt prompt).2 = true ∧
      (sanitize_prompt prompt).1.length ≤ 250 ∧
      (max (rfind (prompt.take 250) ',') (rfind (prompt.take 250) ' ') > 150 →
        (sanitize_prompt prompt).1 =
          pyStrip (rstripComma ((prompt.take 250).take
            (max (rfind (prompt.take 250) ',') (rfind (prompt.take 250) ' ')).toNat)) ∧
        ((prompt.take 250).get? (max (rfind (prompt.take 250) ',')
            (rfind (prompt.take 250) ' ')).toNat = some ',' ∨
         (prompt.take 250).get? (max (rfind (prompt.take 250) ',')
            (rfind (prompt.take 250) ' ')).toNat = some ' ')) ∧
      (max (rfind (prompt.take 250) ',') (rfind (prompt.take 250) ' ') ≤ 150 →
        (sanitize_prompt prompt).1 = pyStrip (prompt.take 250))) := by
  constructor
  · intro hle
    simp only [sanitize_prompt, MAX_PROMPT_CHARS]
    rw [if_neg (by omega)]
  · intro hgt
    have hred : sanitize_prompt prompt =
        (if max (rfind (prompt.take 250) ',') (rfind (prompt.take 250) ' ') > 150 then
          (pyStrip (rstripComma ((prompt.take 250).take
            (max (rfind (prompt.take 250) ',') (rfind (prompt.take 250) ' ')).toNat)), true)
        else (pyStrip (prompt.take 250), true)) := by
      simp only [sanitize_prompt, MAX_PROMPT_CHARS]
      rw [if_pos (by omega)]
    constructor
    · rw [hred]
      split <;> rfl
    constructor
    · rw [hred]
      split
      · calc (pyStrip (rstripComma ((prompt.take 250).take
              (max (rfind (prompt.take 250) ',')
                   (rfind (prompt.take 250) ' ')).toNat))).length
            ≤ ((prompt.take 250).take
                (max (rfind (prompt.take 250) ',')
                     (rfind (prompt.take 250) ' ')).toNat).length :=
              le_trans (pyStrip_length_le _) (rstripComma_length_le _)
          _ ≤ 250 := by
              rw [List.length_take, List.length_take]
              omega
      · calc (pyStrip (prompt.take 250)).length
            ≤ (prompt.take 250).length := pyStrip_length_le _
          _ ≤ 250 := by
              rw [List.length_take]
              omega
    constructor
    · intro hbreak
      constructor
      · rw [hred, if_pos hbreak]
      · rcases max_choice (rfind (prompt.take 250) ',') (rfind (prompt.take 250) ' ')
          with hmax | hmax
        · left
          rw [hmax]
          exact rfind_get _ _ (by omega)
        · right
          rw [hmax]
          exact rfind_get _ _ (by omega)
    · intro hbreak
      rw [hred, if_neg (by omega)]

theorem sanitize_prompt_amended_witness :
    sanitize_prompt "a photo of a cat".toList = ("a photo of a cat".toList, false) ∧
    (sanitize_prompt (List.replicate 200 'a' ++ (' ' :: List.replicate 101 'b'))).1 =
      List.replicate 200 'a' ∧
    (sanitize_prompt (List.replicate 200 'a' ++ (' ' :: List.replicate 101 'b'))).2 = true := by
  refine ⟨(sanitize_prompt_amended "a photo of a cat".toList).1 (by decide), ?_, ?_⟩
  · have h := ((sanitize_prompt_amended
      (List.replicate 200 'a' ++ (' ' :: List.replicate 101 'b'))).2 (by decide)).2.2.1
      (by decide)
    rw [h.1]
    decide
  · exact ((sanitize_prompt_amended
      (List.replicate 200 'a' ++ (' ' :: List.replicate 101 'b'))).2 (by decide)).1

/-- C6: a successful `generate_image` request with `numOutputs = N ≥ 1`
returns exactly N artifacts whose paths are pairwise distinct, and the i-th
filename is `<timestamp>_<slug>_<i+1>.png` under the project images directory
(lines 277-331), with strictly increasing 1-based index suffixes; the slug is
built from the first 30 characters of the sanitized prompt keeping only
alphanumerics, spaces, hyphens and underscores (then stripped), with spaces
replaced by underscores — so every slug character is alphanumeric, a hyphen or
an underscore. -/
theorem generate_filename_pattern (env : Env) (st : GenState) (project : Project)
    (prompt : Str) (N : Nat) (aspect : String) (seed : Option Nat) (model : Option Str)
    (steps : Option Nat) (gs : Option Int)
    (hN : 1 ≤ N) (hok : env.loadOk (orDefault model env.sdModel) = true) :
    ∃ saved : List SavedImage,
      (generate_image env st project prompt N aspect seed model steps gs).2 = some saved ∧
      saved.length = N ∧
      (saved.map SavedImage.path).Nodup ∧
      (∀ i, i < N →
        (saved.map SavedImage.path)[i]? =
          some (project.images_dir ++ ('/' :: (env.timestamp ++
            ('_' :: safe_prompt_slug (sanitize_prompt prompt).1) ++
            ('_' :: natStr (i + 1)) ++ ".png".toList)))) ∧
      (∀ c ∈ safe_prompt_slug (sanitize_prompt prompt).1,
        c.isAlphanum = true ∨ c = '-' ∨ c = '_') := by
  obtain ⟨p, hp⟩ := _get_pipeline_ok env st model hok
  have hinj : Function.Injective (fun i : Nat =>
      project.images_dir ++ ('/' :: (env.timestamp ++
        ('_' :: safe_prompt_slug (sanitize_prompt prompt).1) ++
        ('_' :: natStr (i + 1)) ++ ".png".toList))) := by
    intro i j hij
    simp only [List.append_assoc, List.cons_append] at hij
    have h1 := List.append_cancel_left hij
    injection h1 with _ h2
    have h3 := List.append_cancel_left h2
    injection h3 with _ h4
    have h5 := List.append_cancel_left h4
    injection h5 with _ h6
    have h7 := append_suffix_cancel h6
    have h8 := natStr_inj_pos (by omega) (by omega) h7
    omega
  simp only [generate_image, hp]
  refine ⟨_, rfl, ?_, ?_, ?_, slug_chars _⟩
  · rw [List.length_map, List.length_range]
  · rw [List.map_map]
    exact (List.nodup_range N).map hinj
  · intro i hi
    rw [List.map_map, List.getElem?_map, List.getElem?_range hi]
    rfl

theorem generate_filename_pattern_witness :
    ∃ saved : List SavedImage,
      (generate_image envA st0 projA "a cat".toList 3 "9:16" none none none none).2 =
        some saved ∧
      saved.length = 3 ∧
      (saved.map SavedImage.path).Nodup ∧
      (∀ i, i < 3 →
        (saved.map SavedImage.path)[i]? =
          some (projA.images_dir ++ ('/' :: (envA.timestamp ++
            ('_' :: safe_prompt_slug (sanitize_prompt "a cat".toList).1) ++
            ('_' :: natStr (i + 1)) ++ ".png".toList)))) ∧
      (∀ c ∈ safe_prompt_slug (sanitize_prompt "a cat".toList).1,
        c.isAlphanum = true ∨ c = '-' ∨ c = '_') :=
  generate_filename_pattern envA st0 projA "a cat".toList 3 "9:16" none none none none
    (by omega) (by decide)

/-- C3: for a request with a 300-character prompt, numOutputs = 1 and aspect
ratio "9:16", generation succeeds (given the model loads), the sanitized
prompt has length at most 250, the single written image is exactly 768x1344
(the portrait resize on lines 317-320 guarantees the target size whatever the
pipeline produced), and the returned metadata mapping has `truncated = true`. -/
theorem scenario_916_truncated (env : Env) (st : GenState) (project : Project)
    (hok : env.loadOk env.sdModel = true) :
    ∃ (saved : List SavedImage) (md : Metadata),
      (image_generator_generate_image env st project (List.replicate 300 'a') 1 "9:16"
        none none none none).2 = some (saved, md) ∧
      md.truncated = true ∧
      saved.length = 1 ∧
      (∀ img ∈ saved, img.width = 768 ∧ img.height = 1344) ∧
      (sanitize_prompt (List.replicate 300 'a')).1.length ≤ 250 := by
  obtain ⟨p, hp⟩ := _get_pipeline_ok env st none (by simpa [orDefault] using hok)
  simp only [image_generator_generate_image, generate_image, hp]
  refine ⟨_, _, rfl, by decide, rfl, ?_, by decide⟩
  intro img himg
  simp only [List.range_succ, List.range_zero, List.nil_append, List.map_cons,
    List.map_nil, List.mem_singleton] at himg
  subst himg
  exact ⟨(portrait_resize_dims _ _ (by simp)).1, (portrait_resize_dims _ _ (by simp)).2⟩

theorem scenario_916_truncated_witness :
    ∃ (saved : List SavedImage) (md : Metadata),
      (image_generator_generate_image envA st0 projA (List.replicate 300 'a') 1 "9:16"
        none none none none).2 = some (saved, md) ∧
      md.truncated = true ∧
      saved.length = 1 ∧
      (∀ img ∈ saved, img.width = 768 ∧ img.height = 1344) ∧
      (sanitize_prompt (List.replicate 300 'a')).1.length ≤ 250 :=
  scenario_916_truncated envA st0 projA (by decide)

/-- C9: the inline-preview encoder is a pure function of the raw file bytes
and the display width: it returns exactly the escape string
`ESC ]1337;File=inline=1;width=<N>:<base64-bytes> BEL` (the spec's template,
stated here as the separately defined `specInlineImageSequence`), and the
embedded base64 payload is a lossless encoding of the raw bytes — decoding it
restores the file contents byte-exactly, so no other transformation is
applied. -/
theorem imgcat_protocol_exact (image_data : List Nat) (width : Nat)
    (hbytes : ∀ b ∈ image_data, b < 256) :
    imgcat image_data width = specInlineImageSequence image_data width ∧
    b64decode (b64encode image_data) = image_data := by
  refine ⟨?_, b64_roundtrip image_data hbytes⟩
  simp [imgcat, specInlineImageSequence]

theorem imgcat_protocol_exact_witness :
    imgcat [137, 80, 78, 71] 40 = specInlineImageSequence [137, 80, 78, 71] 40 ∧
    b64decode (b64encode [137, 80, 78, 71]) = [137, 80, 78, 71] :=
  imgcat_protocol_exact [137, 80, 78, 71] 40 (by decide)

